import Mathlib

/-!
Verification of the measurement acquisition-and-reconciliation core of the
`omramin` sync tool (`omronconnect.py`, `omramin.py`).

Conventions of the embedding:
* Python `float` values are modelled as exact rationals (`ℚ`); decimal
  literals of the source become the corresponding rational literals.
* Python `str` values are modelled as Lean `String`; where character-level
  computation matters (`split`, `lower`, `join` in `ble_mac_to_serial`) the
  operations are defined structurally over `List Char`, mirroring Python's
  semantics on ASCII data.
* Python dicts that are walked by key are modelled as association lists; a
  `dict[key]` lookup that can raise `KeyError` becomes an `Except` value
  carrying the missing key.
* Wall-clock formatting (ISO date strings derived from epoch timestamps) is
  abstracted into an explicit formatting parameter: the reconciliation
  theorems hold for every formatting function.
-/

/-- `DeviceCategory` enum of `omronconnect.py` (only BPM and SCALE exist). -/
inductive DeviceCategory where
  | BPM
  | SCALE
deriving DecidableEq, Repr

/-- Member-name lookup `DeviceCategory.__members__[s]` (keys are the member
names "BPM" and "SCALE"). -/
def DeviceCategory.fromMemberName (s : String) : Option DeviceCategory :=
  if s = "BPM" then some .BPM
  else if s = "SCALE" then some .SCALE
  else none

/-- `BodyIndexList` record of `omronconnect.py` (all fields coerced to int). -/
structure BodyIndexList where
  value : Int
  subtype : Int
  unknown1 : Int
  measurementId : Int
deriving DecidableEq, Repr

/-- Timezone values: Variant A carries an IANA zone name
(`pytz.timezone(name)`), Variant B a fixed offset in minutes
(`pytz.FixedOffset(seconds // 60)`). -/
inductive TimeZoneInfo where
  | iana (name : String)
  | fixedOffset (minutes : Int)
deriving DecidableEq, Repr

/-- `BPMeasurement` dataclass of `omronconnect.py`. -/
structure BPMeasurement where
  systolic : Int
  diastolic : Int
  pulse : Int
  measurementDate : Int
  timeZone : TimeZoneInfo
  irregularHB : Bool := false
  movementDetect : Bool := false
  cuffWrapDetect : Bool := true
  notes : String := ""
deriving DecidableEq, Repr

/-- `WeightMeasurement` dataclass of `omronconnect.py`; absent optional
fields default to the -1 sentinel. -/
structure WeightMeasurement where
  weight : ℚ
  measurementDate : Int
  timeZone : TimeZoneInfo
  bmiValue : ℚ := -1
  bodyFatPercentage : ℚ := -1
  restingMetabolism : ℚ := -1
  skeletalMusclePercentage : ℚ := -1
  visceralFatLevel : ℚ := -1
  metabolicAge : Int := -1
  notes : String := ""
deriving DecidableEq, Repr

/-- `MeasurementTypes = Union[BPMeasurement, WeightMeasurement]`. -/
inductive MeasurementTypes where
  | bp (m : BPMeasurement)
  | weight (m : WeightMeasurement)
deriving DecidableEq, Repr

/-! ## Unit and identity helpers -/

/-- `WeightUnit` enum codes. -/
def WeightUnit.G : Int := 8192

/-- `WeightUnit.KG` code. -/
def WeightUnit.KG : Int := 8195

/-- `WeightUnit.LB` code. -/
def WeightUnit.LB : Int := 8208

/-- `WeightUnit.ST` code. -/
def WeightUnit.ST : Int := 8224

/-- `convert_weight_to_kg(weight, unit)` of `omronconnect.py`. -/
def convert_weight_to_kg (weight : ℚ) (unit : Int) : ℚ :=
  if unit = WeightUnit.G then weight / 1000
  else if unit = WeightUnit.LB then weight * (45359237 / 100000000)
  else if unit = WeightUnit.ST then weight * (635029318 / 100000000)
  else weight

/-- Python `s.split(sep)` for a single-character separator, over char lists. -/
def splitOnChar (sep : Char) : List Char → List (List Char)
  | [] => [[]]
  | c :: rest =>
    let r := splitOnChar sep rest
    if c = sep then [] :: r
    else
      match r with
      | [] => [[c]]
      | h :: t => (c :: h) :: t

/-- `ble_mac_to_serial(mac)` of `omronconnect.py`, over char lists.
`values[5:2:-1]` is the Python slice taking indices 5,4,3 (clipped), i.e.
`((values.take 6).drop 3).reverse`; `values[2::-1]` takes indices 2,1,0,
i.e. `(values.take 3).reverse`.  `str.lower()` is `Char.toLower` on ASCII. -/
def ble_mac_to_serial (mac : List Char) : List Char :=
  let values := splitOnChar ':' mac
  let serial :=
    (((values.take 6).drop 3).reverse ++ [['f', 'e'], ['f', 'f']] ++ (values.take 3).reverse).flatten
  serial.map Char.toLower

/-! ## Device registry entry -/

/-- `OmronDevice` dataclass after successful validation. -/
structure OmronDevice where
  name : String
  macaddr : String
  category : DeviceCategory
  user : Int := 1
  enabled : Bool := true
deriving DecidableEq, Repr

/-- A registry entry as read from configuration, before `__post_init__`
validation: the category is still a raw string. -/
structure RawDeviceEntry where
  name : String
  macaddr : String
  category : String
  user : Int := 1
  enabled : Bool := true
deriving DecidableEq, Repr

/-- Python `str.upper()` on ASCII data. -/
def pyUpper (s : String) : String :=
  ⟨s.data.map Char.toUpper⟩

/-- `OmronDevice.__post_init__` for a string-typed category: looks the
upper-cased string up in `DeviceCategory.__members__`; on `KeyError` it sets
`enabled := False` on the entry and then raises `ValueError` (modelled as an
error carrying the mutated entry and the message). -/
def omronDevice_post_init (d : RawDeviceEntry) : Except (RawDeviceEntry × String) OmronDevice :=
  match DeviceCategory.fromMemberName (pyUpper d.category) with
  | some cat => .ok { name := d.name, macaddr := d.macaddr, category := cat,
                      user := d.user, enabled := d.enabled }
  | none => .error ({ d with enabled := false },
                    "Device '" ++ d.name ++ "' has invalid category: '" ++ d.category ++ "'")

/-! ## Variant A (`OmronConnect1`) record processing -/

/-- One raw entry of `measureList` in a Variant A response: the
`bodyIndexList` dict (figure code → `BodyIndexList`), the record timestamp
and the IANA timezone name. -/
structure MeasureRecordA where
  bodyIndexList : List (String × BodyIndexList)
  measureDateTo : Int
  timeZone : String
deriving DecidableEq, Repr

/-- Python `bodyIndexList[key]`: a dict lookup that raises `KeyError(key)`
when the figure code is absent. -/
def lookupFigure (l : List (String × BodyIndexList)) (k : String) : Except String BodyIndexList :=
  match l.find? (fun p => p.1 == k) with
  | some p => .ok p.2
  | none => .error k

/-- `OmronConnect1._process_bpm_measurements`, body of the per-record loop:
the six figure-code lookups in source order ("1" systolic, "2" diastolic,
"3" pulse, "7" body motion, "6" arrhythmia, "8" cuff-wrap check); any
missing key raises. -/
def process_bpm_record (m : MeasureRecordA) : Except String BPMeasurement := do
  let sys ← lookupFigure m.bodyIndexList "1"
  let dia ← lookupFigure m.bodyIndexList "2"
  let pls ← lookupFigure m.bodyIndexList "3"
  let bodymotion ← lookupFigure m.bodyIndexList "7"
  let irregHB ← lookupFigure m.bodyIndexList "6"
  let cuffWrapGuid ← lookupFigure m.bodyIndexList "8"
  return { systolic := sys.value
           diastolic := dia.value
           pulse := pls.value
           measurementDate := m.measureDateTo
           timeZone := .iana m.timeZone
           irregularHB := irregHB.value != 0
           movementDetect := bodymotion.value != 0
           cuffWrapDetect := cuffWrapGuid.value != 0 }

/-- `OmronConnect1._process_bpm_measurements` over the whole `measureList`:
the loop appends each processed record; an exception from any record
propagates out of the function (there is no handler in `get_measurements`
either), so the result is either the full list or the first error. -/
def process_bpm_measurements (ms : List MeasureRecordA) : Except String (List BPMeasurement) :=
  ms.mapM process_bpm_record

/-- `OmronConnect1._process_scale_measurements`, body of the per-record
loop, lookups in source order ("257" weight+unit, "259" body fat, "261"
skeletal muscle, "260" basal metabolism, "263" biological age, "264"
visceral fat, "262" BMI). -/
def process_scale_record (m : MeasureRecordA) : Except String WeightMeasurement := do
  let w ← lookupFigure m.bodyIndexList "257"
  let weight := convert_weight_to_kg ((w.value : ℚ) / 100) w.subtype
  let bf ← lookupFigure m.bodyIndexList "259"
  let sk ← lookupFigure m.bodyIndexList "261"
  let bm ← lookupFigure m.bodyIndexList "260"
  let ma ← lookupFigure m.bodyIndexList "263"
  let vf ← lookupFigure m.bodyIndexList "264"
  let bmi ← lookupFigure m.bodyIndexList "262"
  return { weight := weight
           measurementDate := m.measureDateTo
           timeZone := .iana m.timeZone
           bmiValue := (bmi.value : ℚ) / 10
           bodyFatPercentage := (bf.value : ℚ) / 10
           restingMetabolism := (bm.value : ℚ)
           skeletalMusclePercentage := (sk.value : ℚ) / 10
           visceralFatLevel := (vf.value : ℚ) / 10
           metabolicAge := ma.value }

/-- `OmronConnect1._process_scale_measurements` over the whole list. -/
def process_scale_measurements (ms : List MeasureRecordA) : Except String (List WeightMeasurement) :=
  ms.mapM process_scale_record

/-- Figure codes whose absence makes Variant A BPM processing raise. -/
def bpmRequiredFigures : List String := ["1", "2", "3", "7", "6", "8"]

/-- Figure codes whose absence makes Variant A SCALE processing raise. -/
def scaleRequiredFigures : List String := ["257", "259", "261", "260", "263", "264", "262"]

/-! ## Variant B (`OmronConnect2`) record processing -/

/-- One raw record returned by Variant B's `/v2/sync/bp` or
`/v2/sync/weight` endpoints, with the fields `get_measurements` reads. -/
structure RawRecordB where
  userNumberInDevice : Int
  measurementDate : Int
  isManualEntry : Int
  timeZone : Int
  systolic : Int := 0
  diastolic : Int := 0
  pulse : Int := 0
  irregularHB : Int := 0
  movementDetect : Int := 0
  cuffWrapDetect : Int := 0
  weight : ℚ := 0
  weightInLbs : ℚ := 0
  bmiValue : ℚ := -1
  bodyFatPercentage : ℚ := -1
  restingMetabolism : ℚ := -1
  skeletalMusclePercentage : ℚ := -1
  visceralFatLevel : ℚ := -1
  notes : String := ""
deriving DecidableEq, Repr

/-- Body of the per-record loop of `filter_measurements` inside
`OmronConnect2.get_measurements`: the three `continue` filters (user slot,
upper date bound, manual entry) in source order, then the category-specific
measurement construction.  `continue` is modelled as `none`. -/
def oc2_process_record (category : DeviceCategory) (user : Int) (searchDateTo : Int)
    (m : RawRecordB) : Option MeasurementTypes :=
  if user ≥ 0 ∧ m.userNumberInDevice ≠ user then none
  else if searchDateTo > 0 ∧ m.measurementDate > searchDateTo then none
  else if m.isManualEntry ≠ 0 then none
  else
    match category with
    | .BPM =>
      some (.bp { systolic := m.systolic
                  diastolic := m.diastolic
                  pulse := m.pulse
                  measurementDate := m.measurementDate
                  timeZone := .fixedOffset (Int.fdiv m.timeZone 60)
                  irregularHB := m.irregularHB != 0
                  movementDetect := m.movementDetect != 0
                  cuffWrapDetect := m.cuffWrapDetect != 0
                  notes := m.notes })
    | .SCALE =>
      let weight := if m.weight ≤ 0 ∧ m.weightInLbs > 0
                    then m.weightInLbs * (453592 / 1000000) else m.weight
      some (.weight { weight := weight
                      measurementDate := m.measurementDate
                      timeZone := .fixedOffset (Int.fdiv m.timeZone 60)
                      bmiValue := m.bmiValue
                      bodyFatPercentage := m.bodyFatPercentage
                      restingMetabolism := m.restingMetabolism
                      skeletalMusclePercentage := m.skeletalMusclePercentage
                      visceralFatLevel := m.visceralFatLevel
                      notes := m.notes })

/-- `filter_measurements(data)` of `OmronConnect2.get_measurements`. -/
def oc2_filter_measurements (category : DeviceCategory) (user : Int) (searchDateTo : Int)
    (data : List RawRecordB) : List MeasurementTypes :=
  data.filterMap (oc2_process_record category user searchDateTo)

/-- `OmronConnect2.get_measurements`: `data` stands for the category's
server response (`get_bp_measurements` / `get_weighins`); an empty (falsy)
response yields `[]` without filtering. -/
def oc2_get_measurements (device : OmronDevice) (searchDateTo : Int)
    (data : List RawRecordB) : List MeasurementTypes :=
  if data.isEmpty then []
  else oc2_filter_measurements device.category device.user searchDateTo data

/-! ## Reconciliation engine (`omramin.py`) -/

/-- The `Options` object of `omramin.py` (the BLE filter is irrelevant to
the sync functions). -/
structure Options where
  write_to_garmin : Bool := true
  overwrite : Bool := false
deriving DecidableEq, Repr

/-- Keyword payload of `gc.add_body_composition(...)` as built by
`sync_scale_measurements`; `None` arguments are `none`. -/
structure BodyCompositionPayload where
  timestamp : String
  weight : ℚ
  percent_fat : Option ℚ
  percent_hydration : Option ℚ
  visceral_fat_mass : Option ℚ
  bone_mass : Option ℚ
  muscle_mass : Option ℚ
  basal_met : Option ℚ
  active_met : Option ℚ
  physique_rating : Option ℚ
  metabolic_age : Option Int
  visceral_fat_rating : Option ℚ
  bmi : ℚ
deriving DecidableEq, Repr

/-- Keyword payload of `gc.set_blood_pressure(...)` as built by
`sync_bp_measurements`. -/
structure BloodPressurePayload where
  timestamp : String
  systolic : Int
  diastolic : Int
  pulse : Int
  notes : String
deriving DecidableEq, Repr

/-- Calls made against the Garmin target store by the sync functions. -/
inductive GarminAction where
  | deleteWeighIn (samplePk : String) (cdate : String)
  | addBodyComposition (p : BodyCompositionPayload)
  | deleteBloodPressure (version : String) (cdate : String)
  | setBloodPressure (p : BloodPressurePayload)
deriving DecidableEq, Repr

/-- The wall-clock formatting used per measurement by the sync functions:
`datetimeStr`/`dateStr` are rendered from the local datetime
(`measurementDate`, `timeZone`), `lookup` (the Comparison Key
"date:timestamp") from the UTC datetime, i.e. from `measurementDate` alone.
Calendar rendering is abstracted; all reconciliation theorems hold for
every formatting. -/
structure TimeFmt where
  datetimeStr : Int → TimeZoneInfo → String
  dateStr : Int → TimeZoneInfo → String
  lookup : Int → String

/-- The `add_body_composition` payload built by `sync_scale_measurements`:
every optional field is guarded by `> 0` — except `bmi`, which is passed
through verbatim. -/
def scale_add_payload (datetimeStr : String) (wm : WeightMeasurement) : BodyCompositionPayload :=
  { timestamp := datetimeStr
    weight := wm.weight
    percent_fat := if wm.bodyFatPercentage > 0 then some wm.bodyFatPercentage else none
    percent_hydration := none
    visceral_fat_mass := none
    bone_mass := none
    muscle_mass := if wm.skeletalMusclePercentage > 0
                   then some (wm.skeletalMusclePercentage * wm.weight / 100) else none
    basal_met := if wm.restingMetabolism > 0 then some wm.restingMetabolism else none
    active_met := none
    physique_rating := none
    metabolic_age := if wm.metabolicAge > 0 then some wm.metabolicAge else none
    visceral_fat_rating := if wm.visceralFatLevel > 0 then some wm.visceralFatLevel else none
    bmi := wm.bmiValue }

/-- Body of the per-measurement loop of `sync_scale_measurements`:
`gcData` is the Garmin map `samplePk → comparison key` (dict in insertion
order).  If the key already exists: with overwrite, delete every matching
record (each delete guarded by `write_to_garmin`) and fall through to the
add; without overwrite, `continue`.  The add itself is guarded by
`write_to_garmin`. -/
def sync_scale_one (fmt : TimeFmt) (opts : Options) (gcData : List (String × String))
    (wm : WeightMeasurement) : List GarminAction :=
  let datetimeStr := fmt.datetimeStr wm.measurementDate wm.timeZone
  let dateStr := fmt.dateStr wm.measurementDate wm.timeZone
  let lookup := fmt.lookup wm.measurementDate
  let addPart : List GarminAction :=
    if opts.write_to_garmin then [.addBodyComposition (scale_add_payload datetimeStr wm)] else []
  if (gcData.map Prod.snd).contains lookup then
    if opts.overwrite then
      (gcData.filter (fun p => p.2 == lookup && opts.write_to_garmin)).map
        (fun p => .deleteWeighIn p.1 dateStr) ++ addPart
    else []
  else addPart

/-- `sync_scale_measurements`: the loop over the fetched measurements (for
a SCALE device these are `WeightMeasurement`s); the emitted target-store
calls are the concatenation of each iteration's calls. -/
def sync_scale_measurements (fmt : TimeFmt) (opts : Options) (gcData : List (String × String))
    (measurements : List WeightMeasurement) : List GarminAction :=
  measurements.flatMap (sync_scale_one fmt opts gcData)

/-- Python `str.lstrip(", ")`: drop leading characters belonging to the set
{',', ' '}. -/
def pyLStripCommaSpace (s : String) : String :=
  ⟨s.data.dropWhile (fun c => c == ',' || c == ' ')⟩

/-- The notes string built by `sync_bp_measurements` from the measurement's
flags. -/
def bp_notes (bpm : BPMeasurement) : String :=
  let n0 := bpm.notes
  let n1 := if bpm.movementDetect then n0 ++ ", Body Movement detected" else n0
  let n2 := if bpm.irregularHB then n1 ++ ", Irregular heartbeat detected" else n1
  let n3 := if !bpm.cuffWrapDetect then n2 ++ ", Cuff wrap error" else n2
  if n3.isEmpty then n3 else pyLStripCommaSpace n3

/-- Body of the per-measurement loop of `sync_bp_measurements`; same
reconciliation structure as `sync_scale_one`, with
`delete_blood_pressure`/`set_blood_pressure` as the actions. -/
def sync_bp_one (fmt : TimeFmt) (opts : Options) (gcData : List (String × String))
    (bpm : BPMeasurement) : List GarminAction :=
  let datetimeStr := fmt.datetimeStr bpm.measurementDate bpm.timeZone
  let dateStr := fmt.dateStr bpm.measurementDate bpm.timeZone
  let lookup := fmt.lookup bpm.measurementDate
  let addPart : List GarminAction :=
    if opts.write_to_garmin then
      [.setBloodPressure { timestamp := datetimeStr, systolic := bpm.systolic,
                           diastolic := bpm.diastolic, pulse := bpm.pulse,
                           notes := bp_notes bpm }]
    else []
  if (gcData.map Prod.snd).contains lookup then
    if opts.overwrite then
      (gcData.filter (fun p => p.2 == lookup && opts.write_to_garmin)).map
        (fun p => .deleteBloodPressure p.1 dateStr) ++ addPart
    else []
  else addPart

/-- `sync_bp_measurements`: the loop over the fetched measurements. -/
def sync_bp_measurements (fmt : TimeFmt) (opts : Options) (gcData : List (String × String))
    (measurements : List BPMeasurement) : List GarminAction :=
  measurements.flatMap (sync_bp_one fmt opts gcData)

/-! ## Theorems -/

/-- C10: for every weight and every unit code outside the gram (8192),
pound (8208) and stone (8224) codes — including the kilogram code 8195 and
any unrecognized code — `convert_weight_to_kg` returns the input unchanged
rather than rejecting unknown unit codes. -/
theorem convert_weight_to_kg_id_outside_known_units (w : ℚ) (unit : Int)
    (hg : unit ≠ 8192) (hlb : unit ≠ 8208) (hst : unit ≠ 8224) :
    convert_weight_to_kg w unit = w := by
  simp [convert_weight_to_kg, WeightUnit.G, WeightUnit.LB, WeightUnit.ST, hg, hlb, hst]

/-- Witness for C10 at the kilogram code 8195. -/
theorem convert_weight_to_kg_id_outside_known_units_witness :
    convert_weight_to_kg 70 8195 = 70 :=
  convert_weight_to_kg_id_outside_known_units 70 8195 (by decide) (by decide) (by decide)

/-- C9: constructing a device entry whose category string does not map to
the `DeviceCategory` enumeration fails with a validation error — it is
never accepted with some defaulted category — and the entry in that failure
path carries `enabled = false`. -/
theorem omronDevice_invalid_category_fails_disabled (d : RawDeviceEntry)
    (h : DeviceCategory.fromMemberName (pyUpper d.category) = none) :
    (∀ dev : OmronDevice, omronDevice_post_init d ≠ .ok dev) ∧
    ∃ e, omronDevice_post_init d = .error e ∧ e.1.enabled = false := by
  constructor
  · intro dev
    simp [omronDevice_post_init, h]
  · exact ⟨({ d with enabled := false },
            "Device '" ++ d.name ++ "' has invalid category: '" ++ d.category ++ "'"),
          by simp [omronDevice_post_init, h], rfl⟩

/-- Witness for C9 at the unimplemented category string "THERMOMETER". -/
theorem omronDevice_invalid_category_fails_disabled_witness :
    (∀ dev : OmronDevice,
        omronDevice_post_init ⟨"scale1", "00:11:22:33:44:55", "THERMOMETER", 1, true⟩ ≠ .ok dev) ∧
    ∃ e, omronDevice_post_init ⟨"scale1", "00:11:22:33:44:55", "THERMOMETER", 1, true⟩ = .error e ∧
      e.1.enabled = false :=
  omronDevice_invalid_category_fails_disabled _ (by decide)

/-- C4: for a MAC of 6 colon-separated hex octets (each two characters),
`ble_mac_to_serial` returns the lower-cased concatenation of octets 6,5,4
(reversed) ++ "feff" ++ octets 3,2,1 (reversed); the output has length 16
with "feff" at character positions 7–10 (1-based), and the example MAC
"11:22:33:44:55:66" maps to "665544feff332211".  Determinism is immediate:
the embedding is a pure function of the MAC. -/
theorem ble_mac_to_serial_spec :
    (∀ (mac a b c d e f : List Char),
        splitOnChar ':' mac = [a, b, c, d, e, f] →
        a.length = 2 → b.length = 2 → c.length = 2 → d.length = 2 → e.length = 2 → f.length = 2 →
        ble_mac_to_serial mac =
          (f ++ e ++ d ++ ['f', 'e', 'f', 'f'] ++ c ++ b ++ a).map Char.toLower ∧
        (ble_mac_to_serial mac).length = 16 ∧
        ((ble_mac_to_serial mac).drop 6).take 4 = ['f', 'e', 'f', 'f']) ∧
    ble_mac_to_serial "11:22:33:44:55:66".data = "665544feff332211".data := by
  constructor
  · intro mac a b c d e f hsplit ha hb hc hd he hf
    obtain ⟨a1, a2, rfl⟩ := List.length_eq_two.mp ha
    obtain ⟨b1, b2, rfl⟩ := List.length_eq_two.mp hb
    obtain ⟨c1, c2, rfl⟩ := List.length_eq_two.mp hc
    obtain ⟨d1, d2, rfl⟩ := List.length_eq_two.mp hd
    obtain ⟨e1, e2, rfl⟩ := List.length_eq_two.mp he
    obtain ⟨f1, f2, rfl⟩ := List.length_eq_two.mp hf
    unfold ble_mac_to_serial
    rw [hsplit]
    refine ⟨rfl, rfl, ?_⟩
    simp [List.take, List.drop]
  · decide

/-- Witness for C4 at the example MAC. -/
theorem ble_mac_to_serial_spec_witness :
    ble_mac_to_serial "11:22:33:44:55:66".data =
      ("66".data ++ "55".data ++ "44".data ++ ['f', 'e', 'f', 'f'] ++ "33".data ++ "22".data ++
        "11".data).map Char.toLower ∧
    (ble_mac_to_serial "11:22:33:44:55:66".data).length = 16 ∧
    ((ble_mac_to_serial "11:22:33:44:55:66".data).drop 6).take 4 = ['f', 'e', 'f', 'f'] :=
  ble_mac_to_serial_spec.1 "11:22:33:44:55:66".data
    "11".data "22".data "33".data "44".data "55".data "66".data
    (by decide) (by decide) (by decide) (by decide) (by decide) (by decide) (by decide)

/-- Helper: a record whose manual-entry flag is nonzero is skipped by the
per-record filter, whatever category, user slot and date bound are in
effect. -/
theorem oc2_process_record_manual_none (cat : DeviceCategory) (user searchDateTo : Int)
    (m : RawRecordB) (hman : m.isManualEntry ≠ 0) :
    oc2_process_record cat user searchDateTo m = none := by
  unfold oc2_process_record
  by_cases h1 : user ≥ 0 ∧ m.userNumberInDevice ≠ user
  · rw [if_pos h1]
  · rw [if_neg h1]
    by_cases h2 : searchDateTo > 0 ∧ m.measurementDate > searchDateTo
    · rw [if_pos h2]
    · rw [if_neg h2, if_pos hman]

/-- C7: in Variant B, a raw record with the manual-entry flag set never
appears in the returned measurement list — it is mapped to `continue`
(`none`), and the output of `get_measurements` on any response containing
the record equals the output on the response without it. -/
theorem oc2_manual_entry_never_appears (device : OmronDevice) (searchDateTo : Int)
    (d1 d2 : List RawRecordB) (m : RawRecordB) (hman : m.isManualEntry ≠ 0) :
    oc2_process_record device.category device.user searchDateTo m = none ∧
    oc2_get_measurements device searchDateTo (d1 ++ m :: d2) =
      oc2_get_measurements device searchDateTo (d1 ++ d2) := by
  have hnone := oc2_process_record_manual_none device.category device.user searchDateTo m hman
  refine ⟨hnone, ?_⟩
  have hfm : (d1 ++ m :: d2).filterMap
      (oc2_process_record device.category device.user searchDateTo) =
      (d1 ++ d2).filterMap (oc2_process_record device.category device.user searchDateTo) := by
    simp [List.filterMap_append, hnone]
  unfold oc2_get_measurements oc2_filter_measurements
  by_cases h2 : (d1 ++ d2).isEmpty = true
  · obtain ⟨rfl, rfl⟩ : d1 = [] ∧ d2 = [] := by
      cases d1 <;> simp_all
    simp [hnone]
  · rw [if_neg (by simp), if_neg h2]
    exact hfm

/-- Witness for C7: a concrete manual-entry weigh-in record disappears from
the output. -/
theorem oc2_manual_entry_never_appears_witness :
    oc2_process_record DeviceCategory.SCALE 1 0
      { userNumberInDevice := 1, measurementDate := 5, isManualEntry := 1, timeZone := 0 } = none ∧
    oc2_get_measurements ⟨"s", "m", DeviceCategory.SCALE, 1, true⟩ 0
      ([] ++ { userNumberInDevice := 1, measurementDate := 5, isManualEntry := 1,
               timeZone := 0 } :: []) =
      oc2_get_measurements ⟨"s", "m", DeviceCategory.SCALE, 1, true⟩ 0 ([] ++ []) :=
  oc2_manual_entry_never_appears ⟨"s", "m", DeviceCategory.SCALE, 1, true⟩ 0 [] []
    { userNumberInDevice := 1, measurementDate := 5, isManualEntry := 1, timeZone := 0 }
    (by decide)

/-- C8: in Variant B, a record with `measurementDate` strictly above a
positive `searchDateTo` is excluded; with `searchDateTo = 0` (the unset
default) a record passing the user and manual-entry filters is included. -/
theorem oc2_date_upper_bound_filter :
    (∀ (cat : DeviceCategory) (user searchDateTo : Int) (m : RawRecordB),
        0 < searchDateTo → searchDateTo < m.measurementDate →
        oc2_process_record cat user searchDateTo m = none) ∧
    (∀ (cat : DeviceCategory) (user : Int) (m : RawRecordB),
        ¬(user ≥ 0 ∧ m.userNumberInDevice ≠ user) → m.isManualEntry = 0 →
        (oc2_process_record cat user 0 m).isSome = true) := by
  constructor
  · intro cat user searchDateTo m h1 h2
    unfold oc2_process_record
    by_cases hu : user ≥ 0 ∧ m.userNumberInDevice ≠ user
    · rw [if_pos hu]
    · rw [if_neg hu, if_pos ⟨h1, h2⟩]
  · intro cat user m hu hman
    unfold oc2_process_record
    rw [if_neg hu, if_neg (by simp), if_neg (by simp [hman])]
    cases cat <;> simp

/-- Witness for C8: a record dated 200 is excluded under bound 100 and
included under the unset bound 0. -/
theorem oc2_date_upper_bound_filter_witness :
    oc2_process_record DeviceCategory.SCALE 1 100
      { userNumberInDevice := 1, measurementDate := 200, isManualEntry := 0, timeZone := 0 } =
      none ∧
    (oc2_process_record DeviceCategory.SCALE 1 0
      { userNumberInDevice := 1, measurementDate := 200, isManualEntry := 0,
        timeZone := 0 }).isSome = true :=
  ⟨oc2_date_upper_bound_filter.1 DeviceCategory.SCALE 1 100 _ (by decide) (by decide),
   oc2_date_upper_bound_filter.2 DeviceCategory.SCALE 1 _ (by decide) (by decide)⟩

/-- `Except` bind on an error short-circuits. -/
theorem except_bind_error {ε α β : Type} (e : ε) (f : α → Except ε β) :
    (Except.error e >>= f) = Except.error e := rfl

/-- `Except` bind on a success applies the continuation. -/
theorem except_bind_ok {ε α β : Type} (a : α) (f : α → Except ε β) :
    (Except.ok a >>= f) = f a := rfl

/-- Helper: the weight stored by Variant B's SCALE branch is the raw weight
with the pounds fallback applied. -/
theorem oc2_scale_weight_eq (user searchDateTo : Int) (m : RawRecordB)
    (wm : WeightMeasurement)
    (h : oc2_process_record .SCALE user searchDateTo m = some (.weight wm)) :
    wm.weight = if m.weight ≤ 0 ∧ 0 < m.weightInLbs
                then m.weightInLbs * (453592 / 1000000 : ℚ) else m.weight := by
  unfold oc2_process_record at h
  by_cases h1 : user ≥ 0 ∧ m.userNumberInDevice ≠ user
  · rw [if_pos h1] at h
    exact absurd h (by simp)
  · rw [if_neg h1] at h
    by_cases h2 : searchDateTo > 0 ∧ m.measurementDate > searchDateTo
    · rw [if_pos h2] at h
      exact absurd h (by simp)
    · rw [if_neg h2] at h
      by_cases h3 : m.isManualEntry ≠ 0
      · rw [if_pos h3] at h
        exact absurd h (by simp)
      · rw [if_neg h3] at h
        simp only [Option.some.injEq, MeasurementTypes.weight.injEq] at h
        rw [← h]

/-- A Variant B weigh-in record with nonpositive primary weight and a
positive pounds field (all filters passing). -/
def rcexB5 : RawRecordB :=
  { userNumberInDevice := 1, measurementDate := 100, isManualEntry := 0, timeZone := 0,
    weight := 0, weightInLbs := 100 }

/-- The measurement Variant B emits for `rcexB5`: the weight uses the
hard-coded factor 0.453592. -/
def wmcexB5 : WeightMeasurement :=
  { weight := 100 * (453592 / 1000000 : ℚ), measurementDate := 100,
    timeZone := .fixedOffset 0, notes := "" }

/-- Counterexample for C5 as stated: on a record with weight 0 and 100 lbs,
the emitted weight is 100 × 0.453592 = 45.3592 kg, which differs from the
claimed factor's 100 × 0.45359237 = 45.359237 kg. -/
theorem oc2_lbs_factor_counterexample :
    oc2_process_record DeviceCategory.SCALE 1 0 rcexB5 = some (.weight wmcexB5) ∧
    wmcexB5.weight ≠ 100 * (45359237 / 100000000 : ℚ) := by
  constructor
  · norm_num [oc2_process_record, rcexB5, wmcexB5]
  · norm_num [wmcexB5]

/-- C5 (amended): in Variant B's SCALE branch, a record whose primary
weight is nonpositive and whose pounds field is positive is emitted with
weight = pounds × 0.453592 (the hard-coded factor of
`OmronConnect2.get_measurements`, not the 0.45359237 used by
`convert_weight_to_kg`). -/
theorem oc2_lbs_fallback_uses_453592 (user searchDateTo : Int) (m : RawRecordB)
    (wm : WeightMeasurement) (hw : m.weight ≤ 0) (hlb : 0 < m.weightInLbs)
    (h : oc2_process_record .SCALE user searchDateTo m = some (.weight wm)) :
    wm.weight = m.weightInLbs * (453592 / 1000000 : ℚ) := by
  rw [oc2_scale_weight_eq user searchDateTo m wm h, if_pos ⟨hw, hlb⟩]

/-- Witness for the amended C5 at the concrete record `rcexB5`. -/
theorem oc2_lbs_fallback_uses_453592_witness :
    wmcexB5.weight = rcexB5.weightInLbs * (453592 / 1000000 : ℚ) :=
  oc2_lbs_fallback_uses_453592 1 0 rcexB5 wmcexB5 (by norm_num [rcexB5])
    (by norm_num [rcexB5]) (by norm_num [oc2_process_record, rcexB5, wmcexB5])

/-- Helper: every branch of `convert_weight_to_kg` preserves positivity. -/
theorem convert_weight_to_kg_pos (w : ℚ) (u : Int) (hw : 0 < w) :
    0 < convert_weight_to_kg w u := by
  unfold convert_weight_to_kg
  split_ifs
  · exact div_pos hw (by norm_num)
  · exact mul_pos hw (by norm_num)
  · exact mul_pos hw (by norm_num)
  · exact hw

/-- Helper: a successful Variant A SCALE record carries all required figure
codes, and its weight is the code-257 value / 100 put through
`convert_weight_to_kg` with the code's `subtype` unit. -/
theorem process_scale_record_ok_elim (m : MeasureRecordA) (wm : WeightMeasurement)
    (h : process_scale_record m = .ok wm) :
    (∀ k ∈ scaleRequiredFigures, (lookupFigure m.bodyIndexList k).isOk = true) ∧
    ∃ b, lookupFigure m.bodyIndexList "257" = .ok b ∧
      wm.weight = convert_weight_to_kg ((b.value : ℚ) / 100) b.subtype := by
  unfold process_scale_record at h
  cases h257 : lookupFigure m.bodyIndexList "257" with
  | error e => rw [h257, except_bind_error] at h; exact Except.noConfusion h
  | ok w =>
  rw [h257] at h
  simp only [except_bind_ok] at h
  cases h259 : lookupFigure m.bodyIndexList "259" with
  | error e => rw [h259, except_bind_error] at h; exact Except.noConfusion h
  | ok bf =>
  rw [h259] at h
  simp only [except_bind_ok] at h
  cases h261 : lookupFigure m.bodyIndexList "261" with
  | error e => rw [h261, except_bind_error] at h; exact Except.noConfusion h
  | ok sk =>
  rw [h261] at h
  simp only [except_bind_ok] at h
  cases h260 : lookupFigure m.bodyIndexList "260" with
  | error e => rw [h260, except_bind_error] at h; exact Except.noConfusion h
  | ok bm =>
  rw [h260] at h
  simp only [except_bind_ok] at h
  cases h263 : lookupFigure m.bodyIndexList "263" with
  | error e => rw [h263, except_bind_error] at h; exact Except.noConfusion h
  | ok ma =>
  rw [h263] at h
  simp only [except_bind_ok] at h
  cases h264 : lookupFigure m.bodyIndexList "264" with
  | error e => rw [h264, except_bind_error] at h; exact Except.noConfusion h
  | ok vf =>
  rw [h264] at h
  simp only [except_bind_ok] at h
  cases h262 : lookupFigure m.bodyIndexList "262" with
  | error e => rw [h262, except_bind_error] at h; exact Except.noConfusion h
  | ok bmi =>
  rw [h262] at h
  simp only [except_bind_ok] at h
  simp only [pure, Except.pure, Except.ok.injEq] at h
  constructor
  · intro k hk
    simp only [scaleRequiredFigures, List.mem_cons, List.not_mem_nil, or_false] at hk
    rcases hk with rfl | rfl | rfl | rfl | rfl | rfl | rfl
    · rw [h257]; rfl
    · rw [h259]; rfl
    · rw [h261]; rfl
    · rw [h260]; rfl
    · rw [h263]; rfl
    · rw [h264]; rfl
    · rw [h262]; rfl
  · exact ⟨w, rfl, by rw [← h]⟩

/-- A Variant B weigh-in record with weight 0 and 0 lbs, passing all
filters. -/
def rcexB6 : RawRecordB :=
  { userNumberInDevice := 1, measurementDate := 100, isManualEntry := 0, timeZone := 0 }

/-- The measurement Variant B emits for `rcexB6`: weight 0. -/
def wmcexB6 : WeightMeasurement :=
  { weight := 0, measurementDate := 100, timeZone := .fixedOffset 0, notes := "" }

/-- Counterexample for C6 as stated: Variant B emits a `WeightMeasurement`
with weight 0 for a record whose weight and pounds fields are both 0, so
`weight > 0` does not hold for every produced measurement. -/
theorem weight_invariant_counterexample :
    oc2_process_record DeviceCategory.SCALE 1 0 rcexB6 = some (.weight wmcexB6) ∧
    ¬(0 < wmcexB6.weight) := by
  constructor
  · norm_num [oc2_process_record, rcexB6, wmcexB6]
  · norm_num [wmcexB6]

/-- C6 (amended): a produced `WeightMeasurement` satisfies `weight > 0`
whenever the raw payload's weight quantity is positive — Variant B: the
primary weight field or the pounds field is positive; Variant A: the
code-257 figure value is positive.  For payloads whose weight fields are
all nonpositive the invariant fails (see the counterexample). -/
theorem weight_positive_of_positive_raw :
    (∀ (user searchDateTo : Int) (m : RawRecordB) (wm : WeightMeasurement),
        oc2_process_record .SCALE user searchDateTo m = some (.weight wm) →
        0 < m.weight ∨ 0 < m.weightInLbs → 0 < wm.weight) ∧
    (∀ (m : MeasureRecordA) (wm : WeightMeasurement) (b : BodyIndexList),
        process_scale_record m = .ok wm →
        lookupFigure m.bodyIndexList "257" = .ok b →
        0 < b.value → 0 < wm.weight) := by
  constructor
  · intro user searchDateTo m wm h hpos
    rw [oc2_scale_weight_eq user searchDateTo m wm h]
    by_cases hc : m.weight ≤ 0 ∧ 0 < m.weightInLbs
    · rw [if_pos hc]
      exact mul_pos hc.2 (by norm_num)
    · rw [if_neg hc]
      rcases hpos with hw | hlb
      · exact hw
      · by_contra hneg
        exact hc ⟨le_of_not_lt hneg, hlb⟩
  · intro m wm b h hb hv
    obtain ⟨-, b', hb', hweq⟩ := process_scale_record_ok_elim m wm h
    have hbb : b' = b := by
      have := hb'.symm.trans hb
      exact Except.ok.inj this
    rw [hweq, hbb]
    exact convert_weight_to_kg_pos _ _
      (div_pos (by exact_mod_cast hv) (by norm_num))

/-- A Variant B weigh-in record with positive primary weight. -/
def rposB : RawRecordB :=
  { userNumberInDevice := 1, measurementDate := 100, isManualEntry := 0, timeZone := 0,
    weight := 70, weightInLbs := 0 }

/-- The measurement Variant B emits for `rposB`. -/
def wmposB : WeightMeasurement :=
  { weight := 70, measurementDate := 100, timeZone := .fixedOffset 0, notes := "" }

/-- A well-formed Variant A SCALE record: all seven figure codes present,
weight figure 7000 hundredths-of-kg with the kilogram unit code. -/
def recScaleGood : MeasureRecordA :=
  { bodyIndexList :=
      [("257", ⟨7000, 8195, 0, 1⟩), ("259", ⟨250, 61584, 0, 1⟩), ("261", ⟨300, 61584, 0, 1⟩),
       ("260", ⟨1500, 16387, 0, 1⟩), ("263", ⟨30, 61568, 0, 1⟩), ("264", ⟨50, 0, 0, 1⟩),
       ("262", ⟨220, 0, 0, 1⟩)],
    measureDateTo := 1704268800000, timeZone := "UTC" }

/-- The measurement Variant A builds from `recScaleGood`. -/
def wmScaleGood : WeightMeasurement :=
  { weight := 70, measurementDate := 1704268800000, timeZone := .iana "UTC", bmiValue := 22,
    bodyFatPercentage := 25, restingMetabolism := 1500, skeletalMusclePercentage := 30,
    visceralFatLevel := 5, metabolicAge := 30, notes := "" }

/-- Witness for the amended C6: positive raw weights yield positive
emitted weights in both variants. -/
theorem weight_positive_of_positive_raw_witness :
    0 < wmposB.weight ∧ 0 < wmScaleGood.weight :=
  ⟨weight_positive_of_positive_raw.1 1 0 rposB wmposB
      (by norm_num [oc2_process_record, rposB, wmposB])
      (Or.inl (by norm_num [rposB])),
   weight_positive_of_positive_raw.2 recScaleGood wmScaleGood ⟨7000, 8195, 0, 1⟩
      (by
        have hstep : process_scale_record recScaleGood =
            Except.ok { weight := convert_weight_to_kg (((7000 : Int) : ℚ) / 100) 8195,
                        measurementDate := 1704268800000, timeZone := .iana "UTC",
                        bmiValue := ((220 : Int) : ℚ) / 10,
                        bodyFatPercentage := ((250 : Int) : ℚ) / 10,
                        restingMetabolism := ((1500 : Int) : ℚ),
                        skeletalMusclePercentage := ((300 : Int) : ℚ) / 10,
                        visceralFatLevel := ((50 : Int) : ℚ) / 10,
                        metabolicAge := 30, notes := "" } := rfl
        rw [hstep]
        norm_num [wmScaleGood, WeightMeasurement.mk.injEq, convert_weight_to_kg,
          WeightUnit.G, WeightUnit.LB, WeightUnit.ST])
      rfl (by decide)⟩

/-- Helper: a successful Variant A BPM record carries all required figure
codes. -/
theorem process_bpm_record_ok_elim (m : MeasureRecordA) (r : BPMeasurement)
    (h : process_bpm_record m = .ok r) :
    ∀ k ∈ bpmRequiredFigures, (lookupFigure m.bodyIndexList k).isOk = true := by
  unfold process_bpm_record at h
  cases h1 : lookupFigure m.bodyIndexList "1" with
  | error e => rw [h1, except_bind_error] at h; exact Except.noConfusion h
  | ok sys =>
  rw [h1] at h
  simp only [except_bind_ok] at h
  cases h2 : lookupFigure m.bodyIndexList "2" with
  | error e => rw [h2, except_bind_error] at h; exact Except.noConfusion h
  | ok dia =>
  rw [h2] at h
  simp only [except_bind_ok] at h
  cases h3 : lookupFigure m.bodyIndexList "3" with
  | error e => rw [h3, except_bind_error] at h; exact Except.noConfusion h
  | ok pls =>
  rw [h3] at h
  simp only [except_bind_ok] at h
  cases h7 : lookupFigure m.bodyIndexList "7" with
  | error e => rw [h7, except_bind_error] at h; exact Except.noConfusion h
  | ok bodymotion =>
  rw [h7] at h
  simp only [except_bind_ok] at h
  cases h6 : lookupFigure m.bodyIndexList "6" with
  | error e => rw [h6, except_bind_error] at h; exact Except.noConfusion h
  | ok irregHB =>
  rw [h6] at h
  simp only [except_bind_ok] at h
  cases h8 : lookupFigure m.bodyIndexList "8" with
  | error e => rw [h8, except_bind_error] at h; exact Except.noConfusion h
  | ok cuffWrapGuid =>
  intro k hk
  simp only [bpmRequiredFigures, List.mem_cons, List.not_mem_nil, or_false] at hk
  rcases hk with rfl | rfl | rfl | rfl | rfl | rfl
  · rw [h1]; rfl
  · rw [h2]; rfl
  · rw [h3]; rfl
  · rw [h7]; rfl
  · rw [h6]; rfl
  · rw [h8]; rfl

/-- Helper: if the whole BPM `measureList` processes successfully, every
record in it processed successfully. -/
theorem process_bpm_measurements_ok_elim (ms : List MeasureRecordA) (l : List BPMeasurement)
    (h : process_bpm_measurements ms = .ok l) :
    ∀ m ∈ ms, ∃ r, process_bpm_record m = .ok r := by
  induction ms generalizing l with
  | nil => simp
  | cons a t ih =>
    unfold process_bpm_measurements at h ih
    rw [List.mapM_cons] at h
    cases hfa : process_bpm_record a with
    | error e => rw [hfa, except_bind_error] at h; exact Except.noConfusion h
    | ok r =>
      rw [hfa] at h
      simp only [except_bind_ok] at h
      cases ht : List.mapM process_bpm_record t with
      | error e => rw [ht, except_bind_error] at h; exact Except.noConfusion h
      | ok rs =>
        intro m hm
        rcases List.mem_cons.mp hm with rfl | hm
        · exact ⟨r, hfa⟩
        · exact ih rs ht m hm

/-- Helper: if the whole SCALE `measureList` processes successfully, every
record in it processed successfully. -/
theorem process_scale_measurements_ok_elim (ms : List MeasureRecordA)
    (l : List WeightMeasurement) (h : process_scale_measurements ms = .ok l) :
    ∀ m ∈ ms, ∃ r, process_scale_record m = .ok r := by
  induction ms generalizing l with
  | nil => simp
  | cons a t ih =>
    unfold process_scale_measurements at h ih
    rw [List.mapM_cons] at h
    cases hfa : process_scale_record a with
    | error e => rw [hfa, except_bind_error] at h; exact Except.noConfusion h
    | ok r =>
      rw [hfa] at h
      simp only [except_bind_ok] at h
      cases ht : List.mapM process_scale_record t with
      | error e => rw [ht, except_bind_error] at h; exact Except.noConfusion h
      | ok rs =>
        intro m hm
        rcases List.mem_cons.mp hm with rfl | hm
        · exact ⟨r, hfa⟩
        · exact ih rs ht m hm

/-- A well-formed Variant A BPM record (all six figure codes present). -/
def recBpmGood : MeasureRecordA :=
  { bodyIndexList :=
      [("1", ⟨120, 20496, 0, 1⟩), ("2", ⟨80, 20496, 0, 1⟩), ("3", ⟨60, 61600, 0, 1⟩),
       ("7", ⟨0, 0, 0, 1⟩), ("6", ⟨0, 0, 0, 1⟩), ("8", ⟨1, 0, 0, 1⟩)],
    measureDateTo := 1704268800000, timeZone := "UTC" }

/-- A Variant A BPM record missing the required systolic figure code "1". -/
def recBpmBad : MeasureRecordA :=
  { bodyIndexList :=
      [("2", ⟨80, 20496, 0, 1⟩), ("3", ⟨60, 61600, 0, 1⟩),
       ("7", ⟨0, 0, 0, 1⟩), ("6", ⟨0, 0, 0, 1⟩), ("8", ⟨1, 0, 0, 1⟩)],
    measureDateTo := 1704268800000, timeZone := "UTC" }

/-- A Variant A SCALE record missing the required weight figure code
"257". -/
def recScaleBad : MeasureRecordA :=
  { bodyIndexList := [("259", ⟨250, 61584, 0, 1⟩)], measureDateTo := 0, timeZone := "UTC" }

/-- The measurement built from `recBpmGood`. -/
def bpGood : BPMeasurement :=
  { systolic := 120, diastolic := 80, pulse := 60, measurementDate := 1704268800000,
    timeZone := .iana "UTC", irregularHB := false, movementDetect := false,
    cuffWrapDetect := true, notes := "" }

/-- Counterexample for C2 as stated: on a `measureList` holding one
well-formed record and one record missing the required code "1", Variant A
processing returns the `KeyError` — it does not drop the bad record and
return the measurements of the remaining records (which processing the
well-formed record alone would give). -/
theorem missing_figure_counterexample :
    process_bpm_measurements [recBpmGood, recBpmBad] = .error "1" ∧
    process_bpm_measurements [recBpmGood] = .ok [bpGood] := by
  constructor
  · rfl
  · rfl

/-- C2 (amended): a Variant A record missing a required figure code for the
device's category is not dropped with a warning — the `KeyError` propagates
out of the per-record loop (and out of `get_measurements`, which has no
handler around it), aborting the whole device's fetch with an error. -/
theorem missing_figure_aborts_fetch :
    (∀ ms : List MeasureRecordA,
        (∃ m ∈ ms, ∃ k ∈ bpmRequiredFigures, (lookupFigure m.bodyIndexList k).isOk = false) →
        ∃ e, process_bpm_measurements ms = .error e) ∧
    (∀ ms : List MeasureRecordA,
        (∃ m ∈ ms, ∃ k ∈ scaleRequiredFigures, (lookupFigure m.bodyIndexList k).isOk = false) →
        ∃ e, process_scale_measurements ms = .error e) := by
  constructor
  · rintro ms ⟨m, hm, k, hk, hbad⟩
    cases hres : process_bpm_measurements ms with
    | error e => exact ⟨e, rfl⟩
    | ok l =>
      obtain ⟨r, hr⟩ := process_bpm_measurements_ok_elim ms l hres m hm
      have hgood := process_bpm_record_ok_elim m r hr k hk
      rw [hbad] at hgood
      exact absurd hgood (by simp)
  · rintro ms ⟨m, hm, k, hk, hbad⟩
    cases hres : process_scale_measurements ms with
    | error e => exact ⟨e, rfl⟩
    | ok l =>
      obtain ⟨r, hr⟩ := process_scale_measurements_ok_elim ms l hres m hm
      have hgood := (process_scale_record_ok_elim m r hr).1 k hk
      rw [hbad] at hgood
      exact absurd hgood (by simp)

/-- Witness for the amended C2: concrete malformed records abort both
category fetches. -/
theorem missing_figure_aborts_fetch_witness :
    (∃ e, process_bpm_measurements [recBpmBad] = .error e) ∧
    (∃ e, process_scale_measurements [recScaleBad] = .error e) :=
  ⟨missing_figure_aborts_fetch.1 [recBpmBad]
      ⟨recBpmBad, by simp, "1", by simp [bpmRequiredFigures], by decide⟩,
   missing_figure_aborts_fetch.2 [recScaleBad]
      ⟨recScaleBad, by simp, "257", by simp [scaleRequiredFigures], by decide⟩⟩

/-- Helper: if the Garmin map's values contain a key, filtering the map for
that key is nonempty. -/
theorem filter_key_ne_nil (gcData : List (String × String)) (key : String)
    (h : (gcData.map Prod.snd).contains key = true) :
    gcData.filter (fun p => p.2 == key) ≠ [] := by
  have hmem : key ∈ gcData.map Prod.snd := by simpa using h
  obtain ⟨p, hp, hpk⟩ := List.mem_map.mp hmem
  intro hnil
  have hpf : p ∈ gcData.filter (fun p => p.2 == key) :=
    List.mem_filter.mpr ⟨hp, by simp [hpk]⟩
  rw [hnil] at hpf
  exact List.not_mem_nil p hpf

/-- C1: with overwrite enabled (and writing enabled, i.e. not dry-run), a
fetched measurement whose Comparison Key is present among the target
store's values yields exactly: one delete per existing record handle mapped
to that key (in map order), followed by exactly one add of the freshly
fetched measurement — all deletes precede the add, the delete list is
nonempty, and there is never an add before a delete or a delete without the
trailing add.  Stated for both the SCALE and the BPM sync loops. -/
theorem sync_overwrite_deletes_then_add (fmt : TimeFmt) (opts : Options)
    (gcData : List (String × String)) (wm : WeightMeasurement) (bpm : BPMeasurement)
    (hov : opts.overwrite = true) (hw : opts.write_to_garmin = true)
    (hwm : (gcData.map Prod.snd).contains (fmt.lookup wm.measurementDate) = true)
    (hbp : (gcData.map Prod.snd).contains (fmt.lookup bpm.measurementDate) = true) :
    (sync_scale_one fmt opts gcData wm =
        (gcData.filter (fun p => p.2 == fmt.lookup wm.measurementDate)).map
          (fun p => .deleteWeighIn p.1 (fmt.dateStr wm.measurementDate wm.timeZone)) ++
        [.addBodyComposition
          (scale_add_payload (fmt.datetimeStr wm.measurementDate wm.timeZone) wm)] ∧
      gcData.filter (fun p => p.2 == fmt.lookup wm.measurementDate) ≠ []) ∧
    (sync_bp_one fmt opts gcData bpm =
        (gcData.filter (fun p => p.2 == fmt.lookup bpm.measurementDate)).map
          (fun p => .deleteBloodPressure p.1 (fmt.dateStr bpm.measurementDate bpm.timeZone)) ++
        [.setBloodPressure { timestamp := fmt.datetimeStr bpm.measurementDate bpm.timeZone,
                             systolic := bpm.systolic, diastolic := bpm.diastolic,
                             pulse := bpm.pulse, notes := bp_notes bpm }] ∧
      gcData.filter (fun p => p.2 == fmt.lookup bpm.measurementDate) ≠ []) := by
  constructor
  · refine ⟨?_, filter_key_ne_nil gcData _ hwm⟩
    unfold sync_scale_one
    simp only [hov, hw, hwm, eq_self_iff_true, if_true, Bool.and_true]
  · refine ⟨?_, filter_key_ne_nil gcData _ hbp⟩
    unfold sync_bp_one
    simp only [hov, hw, hbp, eq_self_iff_true, if_true, Bool.and_true]

/-- A constant wall-clock formatting used for concrete witnesses. -/
def fmtK : TimeFmt :=
  { datetimeStr := fun _ _ => "T", dateStr := fun _ _ => "D", lookup := fun _ => "K" }

/-- Witness for C1 on a concrete store holding two records under the key. -/
theorem sync_overwrite_deletes_then_add_witness :
    (sync_scale_one fmtK { write_to_garmin := true, overwrite := true }
        [("pk1", "K"), ("pk2", "K")] wmposB =
        ([("pk1", "K"), ("pk2", "K")].filter
            (fun p => p.2 == fmtK.lookup wmposB.measurementDate)).map
          (fun p => .deleteWeighIn p.1 (fmtK.dateStr wmposB.measurementDate wmposB.timeZone)) ++
        [.addBodyComposition
          (scale_add_payload (fmtK.datetimeStr wmposB.measurementDate wmposB.timeZone) wmposB)] ∧
      [("pk1", "K"), ("pk2", "K")].filter
          (fun p => p.2 == fmtK.lookup wmposB.measurementDate) ≠ []) ∧
    (sync_bp_one fmtK { write_to_garmin := true, overwrite := true }
        [("pk1", "K"), ("pk2", "K")] bpGood =
        ([("pk1", "K"), ("pk2", "K")].filter
            (fun p => p.2 == fmtK.lookup bpGood.measurementDate)).map
          (fun p => .deleteBloodPressure p.1 (fmtK.dateStr bpGood.measurementDate bpGood.timeZone)) ++
        [.setBloodPressure { timestamp := fmtK.datetimeStr bpGood.measurementDate bpGood.timeZone,
                             systolic := bpGood.systolic, diastolic := bpGood.diastolic,
                             pulse := bpGood.pulse, notes := bp_notes bpGood }] ∧
      [("pk1", "K"), ("pk2", "K")].filter
          (fun p => p.2 == fmtK.lookup bpGood.measurementDate) ≠ []) :=
  sync_overwrite_deletes_then_add fmtK { write_to_garmin := true, overwrite := true }
    [("pk1", "K"), ("pk2", "K")] wmposB bpGood rfl rfl (by decide) (by decide)

/-- A fetched weigh-in measurement whose optional fields all carry the -1
sentinel (the dataclass defaults). -/
def wmcexC3 : WeightMeasurement :=
  { weight := 70, measurementDate := 0, timeZone := .iana "UTC" }

/-- Counterexample for C3 as stated: the add action emitted for a
measurement whose `bmiValue` is the -1 sentinel carries a literal -1 in the
payload's `bmi` field — `bmiValue` is not converted to the absent marker. -/
theorem sentinel_bmi_passthrough_counterexample :
    sync_scale_one fmtK { write_to_garmin := true, overwrite := false } [] wmcexC3 =
      [.addBodyComposition (scale_add_payload "T" wmcexC3)] ∧
    (scale_add_payload "T" wmcexC3).bmi = -1 := by
  constructor
  · simp [sync_scale_one, fmtK]
  · norm_num [scale_add_payload, wmcexC3]

/-- C3 (amended): in the add payload built by `sync_scale_measurements`,
the optional fields `bodyFatPercentage`, `restingMetabolism`,
`skeletalMusclePercentage`, `visceralFatLevel` and `metabolicAge` carrying
the -1 sentinel are converted to the absent marker (`None`); `bmiValue` is
the exception — it is passed through verbatim, so a sentinel -1 BMI appears
as a literal -1 in the payload. -/
theorem scale_add_payload_sentinels (datetimeStr : String) (wm : WeightMeasurement)
    (h1 : wm.bodyFatPercentage = -1) (h2 : wm.restingMetabolism = -1)
    (h3 : wm.skeletalMusclePercentage = -1) (h4 : wm.visceralFatLevel = -1)
    (h5 : wm.metabolicAge = -1) :
    (scale_add_payload datetimeStr wm).percent_fat = none ∧
    (scale_add_payload datetimeStr wm).muscle_mass = none ∧
    (scale_add_payload datetimeStr wm).basal_met = none ∧
    (scale_add_payload datetimeStr wm).metabolic_age = none ∧
    (scale_add_payload datetimeStr wm).visceral_fat_rating = none ∧
    (scale_add_payload datetimeStr wm).bmi = wm.bmiValue := by
  unfold scale_add_payload
  rw [h1, h2, h3, h4, h5]
  norm_num

/-- Witness for the amended C3 at the all-sentinel measurement. -/
theorem scale_add_payload_sentinels_witness :
    (scale_add_payload "T" wmcexC3).percent_fat = none ∧
    (scale_add_payload "T" wmcexC3).muscle_mass = none ∧
    (scale_add_payload "T" wmcexC3).basal_met = none ∧
    (scale_add_payload "T" wmcexC3).metabolic_age = none ∧
    (scale_add_payload "T" wmcexC3).visceral_fat_rating = none ∧
    (scale_add_payload "T" wmcexC3).bmi = wmcexC3.bmiValue :=
  scale_add_payload_sentinels "T" wmcexC3 rfl rfl rfl rfl rfl
